import Mathlib

/-!
Verification of the BS2PRO controller protocol code
(`scripts/hid_controller.py` and `scripts/ble_read.py`).

Bytes are modelled as `Nat` values below 256, frames as `List Nat`, and hex
text as `String`.  The hardware write path is modelled by its observable
effect: a `Bool` connection flag plus the list of reports written to the
device, in order.
-/

set_option maxHeartbeats 2000000

namespace BS2PRO

/-- Value of one hexadecimal digit, upper or lower case (code points 48–57,
97–102, 65–70), as CPython's digit table gives `bytes.fromhex`. -/
def hexDigitVal (c : Char) : Option Nat :=
  if 48 ≤ c.toNat ∧ c.toNat ≤ 57 then some (c.toNat - 48)
  else if 97 ≤ c.toNat ∧ c.toNat ≤ 102 then some (c.toNat - 97 + 10)
  else if 65 ≤ c.toNat ∧ c.toNat ≤ 70 then some (c.toNat - 65 + 10)
  else none

/-- A character that is a plain hexadecimal digit. -/
def plainHex (c : Char) : Bool := (hexDigitVal c).isSome

/-- ASCII whitespace as CPython's `Py_ISSPACE` classifies it: space and the
code points 9–13 (tab, newline, vertical tab, form feed, carriage
return). -/
def pyIsSpace (c : Char) : Bool :=
  decide (c.toNat = 32 ∨ (9 ≤ c.toNat ∧ c.toNat ≤ 13))

/-- Decode hex digits two at a time, as CPython 3.7+ `bytes.fromhex` does:
ASCII whitespace is skipped between byte pairs (and at either end), but a
pair itself must be two consecutive hex digits; any other character, a
space inside a pair, or a trailing odd digit is an error (`none`). -/
def fromhexCore : List Char → Option (List Nat)
  | [] => some []
  | a :: rest =>
    if pyIsSpace a then fromhexCore rest
    else
      match rest with
      | [] => none
      | b :: rest2 =>
        match hexDigitVal a, hexDigitVal b, fromhexCore rest2 with
        | some x, some y, some t => some ((16 * x + y) :: t)
        | _, _, _ => none

/-- `bytes.fromhex` on a string. -/
def bytesFromhex (s : String) : Option (List Nat) :=
  fromhexCore s.data

/-- The space character (code point 32). -/
def spaceChar : Char := Char.ofNat 32

/-- Python `hex_string.replace(" ", "")`: drop every space. -/
def removeSpaces (l : List Char) : List Char :=
  l.filter (fun c => !(c == spaceChar))

/-- Python `hex_string.replace("0x", "")`: a left-to-right scan removing
every non-overlapping occurrence of the two-character substring `0x`. -/
def remove0x : List Char → List Char
  | [] => []
  | [c] => [c]
  | c :: d :: rest =>
    if c = '0' ∧ d = 'x' then remove0x rest
    else c :: remove0x (d :: rest)

/-- The text preprocessing in `send_hex_command`:
`hex_string.replace(" ", "").replace("0x", "")`. -/
def stripHexText (s : String) : String :=
  ⟨remove0x (removeSpaces s.data)⟩

/-- Lower-case hex digit character for a value below 16. -/
def hexChar (n : Nat) : Char :=
  if n < 10 then Char.ofNat ('0'.toNat + n)
  else Char.ofNat ('a'.toNat + (n - 10))

/-- Two-digit lower-case hex of a byte, as `bytes.hex()` and `f"{b:02x}"`
produce for a value below 256. -/
def byteHex (b : Nat) : String :=
  ⟨[hexChar (b / 16 % 16), hexChar (b % 16)]⟩

/-- `send_output_report`: writes `data` to the device when connected and
reports success; when no device is open it writes nothing and reports
failure.  The second component is the list of reports written. -/
def send_output_report (connected : Bool) (data : List Nat) :
    Bool × List (List Nat) :=
  if connected then (true, [data]) else (false, [])

/-- `send_hex_command`: strips spaces and every `0x` from the text, hex
decodes the remainder with `bytes.fromhex` — which still skips ASCII
whitespace between byte pairs (`ValueError` means failure with nothing
written) — then builds `report_id + payload + zero padding`.  Python computes
`padding_needed = padding_length - 1 - len(payload)` and clamps a negative
value to 0; truncated `Nat` subtraction clamps identically. -/
def send_hex_command (connected : Bool) (hexStr : String)
    (report_id padding_length : Nat) : Bool × List (List Nat) :=
  match bytesFromhex (stripHexText hexStr) with
  | none => (false, [])
  | some payload =>
    let padding_needed := padding_length - 1 - payload.length
    let command := report_id :: (payload ++ List.replicate padding_needed 0)
    send_output_report connected command

/-- `calculate_checksum`: sum of the six bytes `5A A5 21 04 lo hi` plus one,
masked to a byte.  `rpm.to_bytes(2, "little")` gives `lo = rpm % 256` and
`hi = rpm / 256 % 256` (every caller guards `rpm < 65536`). -/
def calculate_checksum (rpm : Nat) : Nat :=
  (0x5A + 0xA5 + 0x21 + 0x04 + rpm % 256 + rpm / 256 % 256 + 1) % 256

/-- `enter_realtime_speed_mode`: sends its fixed 24-byte command. -/
def enter_realtime_speed_mode (connected : Bool) : Bool × List (List Nat) :=
  send_hex_command connected
    "5aa523022500000000000000000000000000000000000000" 2 23

/-- `set_fan_speed`: rejects any rpm outside `[0, 65535]` before touching
the device, otherwise formats `5aa52104` + little-endian rpm + checksum +
32 zero hex digits and sends it through `send_hex_command`. -/
def set_fan_speed (connected : Bool) (rpm : Int) : Bool × List (List Nat) :=
  if rpm < 0 ∨ 65535 < rpm then (false, [])
  else
    let r := rpm.toNat
    let command := "5aa52104" ++ byteHex (r % 256) ++ byteHex (r / 256 % 256)
      ++ byteHex (calculate_checksum r)
      ++ "00000000000000000000000000000000"
    send_hex_command connected command 2 23

/-- The `gear_positions` dictionary of `set_gear_position`: a lookup
defined on exactly the twelve listed (gear, position) keys. -/
def gear_position_hex (g p : Int) : Option String :=
  if g = 1 ∧ p = 1 then some "5aa526050014054400000000000000000000000000000000"
  else if g = 1 ∧ p = 2 then some "5aa5260500a406d500000000000000000000000000000000"
  else if g = 1 ∧ p = 3 then some "5aa52605006c079e00000000000000000000000000000000"
  else if g = 2 ∧ p = 1 then some "5aa526050134086800000000000000000000000000000000"
  else if g = 2 ∧ p = 2 then some "5aa526050160099500000000000000000000000000000000"
  else if g = 2 ∧ p = 3 then some "5aa52605018c0ac200000000000000000000000000000000"
  else if g = 3 ∧ p = 1 then some "5aa5260502f00a2700000000000000000000000000000000"
  else if g = 3 ∧ p = 2 then some "5aa5260502b80bf000000000000000000000000000000000"
  else if g = 3 ∧ p = 3 then some "5aa5260502e40c1d00000000000000000000000000000000"
  else if g = 4 ∧ p = 1 then some "5aa5260503ac0de700000000000000000000000000000000"
  else if g = 4 ∧ p = 2 then some "5aa5260503740eb000000000000000000000000000000000"
  else if g = 4 ∧ p = 3 then some "5aa5260503a00fdd00000000000000000000000000000000"
  else none

/-- `set_gear_position`: looks the pair up in the table, fails without I/O
when it is absent, otherwise sends the fixed command. -/
def set_gear_position (connected : Bool) (g p : Int) :
    Bool × List (List Nat) :=
  match gear_position_hex g p with
  | none => (false, [])
  | some cmd => send_hex_command connected cmd 2 23

/-- `set_brightness`: only 0 and 100 have commands; every other percentage
fails without I/O. -/
def set_brightness (connected : Bool) (percentage : Int) :
    Bool × List (List Nat) :=
  if percentage = 0 then
    send_hex_command connected
      "5aa5470d1c00ff00000000000000006f0000000000000000" 2 23
  else if percentage = 100 then
    send_hex_command connected
      "5aa543024500000000000000000000000000000000000000" 2 23
  else (false, [])

/-- `parse_speed_data` from `ble_read.py`: `None` for fewer than 12 bytes,
otherwise bytes `[8:10]` big-endian as the target speed and `[10:12]`
big-endian as the actual speed. -/
def parse_speed_data (data : List Nat) : Option (Nat × Nat) :=
  if data.length < 12 then none
  else some (256 * data.getD 8 0 + data.getD 9 0,
             256 * data.getD 10 0 + data.getD 11 0)

/-- The HID controller's connection state: `connected` models whether
`self.device` is set. -/
structure Controller where
  connected : Bool
  deriving DecidableEq

/-- A successful `connect`: the device handle is set. -/
def connect (_c : Controller) : Controller := { connected := true }

/-- `disconnect`: closes and clears the device handle; a no-op when no
device is open, and it never fails. -/
def disconnect (_c : Controller) : Controller := { connected := false }

/-- Modelled from the spec: the stripping the specification describes for
hex command text — remove whitespace, then one optional *leading* `0x`
prefix.  (The code itself removes every occurrence of `0x`; this
definition exists to compare the two behaviours.) -/
def specStripHexText (s : String) : String :=
  match s.data.filter (fun c => !c.isWhitespace) with
  | '0' :: 'x' :: rest => ⟨rest⟩
  | t => ⟨t⟩

/-- The 24-byte telemetry example from the `parse_speed_data` docstring:
`5aa5ef0b4a0705e40ce40cfb002b00000000000000000000`; its first 13 bytes are
the prefix quoted in the specification. -/
def telemetryPrefix : List Nat :=
  [0x5a, 0xa5, 0xef, 0x0b, 0x4a, 0x07, 0x05, 0xe4, 0x0c, 0xe4, 0x0c, 0xfb, 0x00]

/-- The twelve keys of the gear table in declaration order. -/
def gearDomain : List (Int × Int) :=
  [(1, 1), (1, 2), (1, 3), (2, 1), (2, 2), (2, 3),
   (3, 1), (3, 2), (3, 3), (4, 1), (4, 2), (4, 3)]

/-- The decoded byte frames of the twelve gear-table entries, in table
order. -/
def gearFrames : List (List Nat) :=
  gearDomain.filterMap (fun gp => (gear_position_hex gp.1 gp.2).bind bytesFromhex)

/-! ## Helper lemmas -/

theorem hexDigitVal_hexChar : ∀ n, n < 16 → hexDigitVal (hexChar n) = some n := by
  decide

theorem plainHex_hexChar (n : Nat) (h : n < 16) : plainHex (hexChar n) = true := by
  simp [plainHex, hexDigitVal_hexChar n h]

theorem plainHex_not_space {c : Char} (h : plainHex c = true) :
    (c == spaceChar) = false := by
  cases hc : c == spaceChar
  · rfl
  · have hce : c = spaceChar := beq_iff_eq.mp hc
    subst hce
    exact absurd h (by decide)

theorem plainHex_ne_x {c : Char} (h : plainHex c = true) : c ≠ 'x' := by
  intro hce
  subst hce
  exact absurd h (by decide)

theorem removeSpaces_nop {l : List Char} (h : ∀ c ∈ l, plainHex c = true) :
    removeSpaces l = l := by
  unfold removeSpaces
  refine List.filter_eq_self.mpr ?_
  intro a ha
  simp [plainHex_not_space (h a ha)]

theorem remove0x_nop : ∀ l : List Char, (∀ c ∈ l, plainHex c = true) →
    remove0x l = l := by
  intro l
  induction l with
  | nil => intro _; rfl
  | cons c cs ih =>
    intro h
    rcases cs with _ | ⟨d, rest⟩
    · rfl
    · have hd : d ≠ 'x' := plainHex_ne_x (h d (by simp))
      have hrec := ih (fun x hx => h x (List.mem_cons_of_mem c hx))
      simp only [remove0x]
      rw [if_neg (by rintro ⟨-, h2⟩; exact hd h2), hrec]

theorem stripHexText_nop : ∀ s : String, (∀ c ∈ s.data, plainHex c = true) →
    stripHexText s = s := by
  intro s h
  obtain ⟨l⟩ := s
  have h' : ∀ c ∈ l, plainHex c = true := h
  show (⟨remove0x (removeSpaces l)⟩ : String) = ⟨l⟩
  rw [removeSpaces_nop h', remove0x_nop l h']

theorem hexDigit_not_space {c : Char} {x : Nat} (h : hexDigitVal c = some x) :
    pyIsSpace c = false := by
  have hb : 48 ≤ c.toNat := by
    unfold hexDigitVal at h
    split_ifs at h with h1 h2 h3
    · exact h1.1
    · omega
    · omega
  unfold pyIsSpace
  simp only [decide_eq_false_iff_not]
  omega

theorem fromhexCore_pair {a b : Char} {x y : Nat} (rest : List Char)
    (ha : hexDigitVal a = some x) (hb : hexDigitVal b = some y) :
    fromhexCore (a :: b :: rest)
      = (fromhexCore rest).map (fun t => (16 * x + y) :: t) := by
  have hs : pyIsSpace a = false := hexDigit_not_space ha
  simp only [fromhexCore, hs, Bool.false_eq_true, if_false, ha, hb]
  cases fromhexCore rest <;> rfl

theorem fromhexCore_byteHex {b : Nat} (hb : b < 256) (rest : List Char) :
    fromhexCore ((byteHex b).data ++ rest)
      = (fromhexCore rest).map (fun t => b :: t) := by
  show fromhexCore (hexChar (b / 16 % 16) :: hexChar (b % 16) :: rest) = _
  rw [fromhexCore_pair rest (hexDigitVal_hexChar _ (by omega))
      (hexDigitVal_hexChar _ (by omega))]
  have hb2 : 16 * (b / 16 % 16) + b % 16 = b := by omega
  rw [hb2]

theorem allPlain_byteHex (b : Nat) : ∀ c ∈ (byteHex b).data, plainHex c = true := by
  have e : (byteHex b).data = [hexChar (b / 16 % 16), hexChar (b % 16)] := rfl
  rw [e]
  intro c hc
  rcases List.mem_cons.mp hc with rfl | hc2
  · exact plainHex_hexChar _ (by omega)
  · rcases List.mem_cons.mp hc2 with rfl | h3
    · exact plainHex_hexChar _ (by omega)
    · exact absurd h3 (List.not_mem_nil c)

theorem fromhexCore_speedHeader (rest : List Char) :
    fromhexCore ("5aa52104".data ++ rest)
      = (fromhexCore rest).map (fun t => 0x5a :: 0xa5 :: 0x21 :: 0x04 :: t) := by
  have h5 : hexDigitVal '5' = some 5 := by decide
  have ha : hexDigitVal 'a' = some 10 := by decide
  have h2 : hexDigitVal '2' = some 2 := by decide
  have h1 : hexDigitVal '1' = some 1 := by decide
  have h0 : hexDigitVal '0' = some 0 := by decide
  have h4 : hexDigitVal '4' = some 4 := by decide
  show fromhexCore ('5' :: 'a' :: 'a' :: '5' :: '2' :: '1' :: '0' :: '4' :: rest) = _
  rw [fromhexCore_pair _ h5 ha, fromhexCore_pair _ ha h5,
      fromhexCore_pair _ h2 h1, fromhexCore_pair _ h0 h4]
  cases fromhexCore rest <;> rfl

theorem bytesFromhex_speedCommand {lo hi ck : Nat} (hlo : lo < 256)
    (hhi : hi < 256) (hck : ck < 256) :
    bytesFromhex (stripHexText ("5aa52104" ++ byteHex lo ++ byteHex hi
        ++ byteHex ck ++ "00000000000000000000000000000000"))
      = some (0x5a :: 0xa5 :: 0x21 :: 0x04 :: lo :: hi :: ck
          :: List.replicate 16 0) := by
  rw [stripHexText_nop]
  · unfold bytesFromhex
    rw [show ("5aa52104" ++ byteHex lo ++ byteHex hi ++ byteHex ck
          ++ "00000000000000000000000000000000").data
        = "5aa52104".data ++ ((byteHex lo).data ++ ((byteHex hi).data
          ++ ((byteHex ck).data ++ "00000000000000000000000000000000".data)))
        from by simp [String.data_append]]
    rw [fromhexCore_speedHeader, fromhexCore_byteHex hlo, fromhexCore_byteHex hhi,
        fromhexCore_byteHex hck]
    rw [show fromhexCore "00000000000000000000000000000000".data
        = some (List.replicate 16 0) from by decide]
    rfl
  · intro c hc
    simp only [String.data_append, List.mem_append] at hc
    rcases hc with (((hc | hc) | hc) | hc) | hc
    · exact (by decide : ∀ c ∈ "5aa52104".data, plainHex c = true) c hc
    · exact allPlain_byteHex lo c hc
    · exact allPlain_byteHex hi c hc
    · exact allPlain_byteHex ck c hc
    · exact (by decide : ∀ c ∈ "00000000000000000000000000000000".data,
        plainHex c = true) c hc

theorem send_speed_command_eval {lo hi ck : Nat} (hlo : lo < 256)
    (hhi : hi < 256) (hck : ck < 256) :
    send_hex_command true ("5aa52104" ++ byteHex lo ++ byteHex hi ++ byteHex ck
        ++ "00000000000000000000000000000000") 2 23
      = (true, [2 :: 0x5a :: 0xa5 :: 0x21 :: 0x04 :: lo :: hi :: ck
          :: List.replicate 16 0]) := by
  unfold send_hex_command
  rw [bytesFromhex_speedCommand hlo hhi hck]
  rfl

/-! ## Claim theorems -/

/-- C1, counterexample: the claim asserts a 25-byte frame, but at rpm = 0
the single report written by `set_fan_speed` is 24 bytes long (a 23-byte
frame behind the 1-byte report id), not 25. -/
theorem speed_frame_length_counterexample :
    (set_fan_speed true 0).2.map List.length = [24]
    ∧ (set_fan_speed true 0).2.map List.length ≠ [25] := by decide

/-- C1 (amended): for every rpm in [0, 65535], `set_fan_speed` writes
exactly one 24-byte report — report id `02` followed by the 23-byte frame
`5A A5 21 04 lo hi ck` plus 16 zero bytes — whose checksum byte equals
`(5A + A5 + 21 + 04 + lo(rpm) + hi(rpm) + 1) mod 256`. -/
theorem speed_frame_checksum (rpm : Nat) (h : rpm ≤ 65535) :
    set_fan_speed true (rpm : Int)
      = (true, [2 :: 0x5a :: 0xa5 :: 0x21 :: 0x04 :: (rpm % 256) :: (rpm / 256)
          :: calculate_checksum rpm :: List.replicate 16 0])
    ∧ calculate_checksum rpm
        = (0x5a + 0xa5 + 0x21 + 0x04 + rpm % 256 + rpm / 256 + 1) % 256 := by
  have hdiv : rpm / 256 % 256 = rpm / 256 := Nat.mod_eq_of_lt (by omega)
  have hck : calculate_checksum rpm < 256 := by
    unfold calculate_checksum; omega
  constructor
  · unfold set_fan_speed
    rw [if_neg (by omega)]
    simp only [Int.toNat_natCast]
    rw [hdiv]
    exact send_speed_command_eval (Nat.mod_lt _ (by omega)) (by omega) hck
  · unfold calculate_checksum
    rw [hdiv]

/-- C1, witness at rpm = 1500. -/
theorem speed_frame_checksum_witness :
    set_fan_speed true ((1500 : Nat) : Int)
      = (true, [2 :: 0x5a :: 0xa5 :: 0x21 :: 0x04 :: (1500 % 256) :: (1500 / 256)
          :: calculate_checksum 1500 :: List.replicate 16 0])
    ∧ calculate_checksum 1500
        = (0x5a + 0xa5 + 0x21 + 0x04 + 1500 % 256 + 1500 / 256 + 1) % 256 :=
  speed_frame_checksum 1500 (by decide)

/-- C2, counterexample: at rpm = 2000 the checksum byte is
`(5A + A5 + 21 + 04 + D0 + 07 + 1) mod 256 = 0xFC`, not `0x33` as the claim
computes, and the report is 24 bytes, not 25. -/
theorem speed2000_checksum_counterexample :
    set_fan_speed true 2000
      = (true, [[2, 0x5a, 0xa5, 0x21, 0x04, 0xd0, 0x07, 0xfc]
          ++ List.replicate 16 0])
    ∧ calculate_checksum 2000 = 0xfc
    ∧ (0xfc : Nat) ≠ 0x33
    ∧ (((2 : Nat) :: [0x5a, 0xa5, 0x21, 0x04, 0xd0, 0x07, 0xfc]
        ++ List.replicate 16 0).length ≠ 25) := by decide

/-- C2 (amended): encoding speed(2000) yields the frame beginning
`5aa52104d007fc` — checksum `(5A+A5+21+04+D0+07+1) mod 256 = 0xFC` — and
the frame is zero-padded to 23 bytes, written as one 24-byte report behind
report id `02`. -/
theorem speed2000_frame :
    set_fan_speed true 2000
      = (true, [[2, 0x5a, 0xa5, 0x21, 0x04, 0xd0, 0x07, 0xfc]
          ++ List.replicate 16 0])
    ∧ (0x5a + 0xa5 + 0x21 + 0x04 + 0xd0 + 0x07 + 1) % 256 = 0xfc
    ∧ (((2 : Nat) :: [0x5a, 0xa5, 0x21, 0x04, 0xd0, 0x07, 0xfc]
        ++ List.replicate 16 0).length = 24) := by decide

/-- C3, counterexample: decoding the docstring telemetry packet
`5aa5ef0b4a0705e40ce40cfb002b…` yields `(0x0ce4, 0x0cfb) = (3300, 3323)`,
not `(1508, 3300)` as the claim states. -/
theorem telemetry_example_counterexample :
    parse_speed_data (telemetryPrefix ++ [0x2b] ++ List.replicate 10 0)
      = some (3300, 3323)
    ∧ some ((3300 : Nat), (3323 : Nat)) ≠ some ((1508 : Nat), (3300 : Nat)) := by
  decide

/-- C3 (amended): every packet extending the 13-byte prefix
`5aa5ef0b4a0705e40ce40cfb00` decodes to target `0x0ce4 = 3300` and actual
`0x0cfb = 3323`. -/
theorem telemetry_example_decode (tail : List Nat) :
    parse_speed_data (telemetryPrefix ++ tail) = some (3300, 3323) := by
  unfold parse_speed_data
  rw [if_neg]
  · rw [List.getD_append _ _ _ _ (show 8 < telemetryPrefix.length by decide),
        List.getD_append _ _ _ _ (show 9 < telemetryPrefix.length by decide),
        List.getD_append _ _ _ _ (show 10 < telemetryPrefix.length by decide),
        List.getD_append _ _ _ _ (show 11 < telemetryPrefix.length by decide)]
    decide
  · rw [List.length_append]
    have h13 : telemetryPrefix.length = 13 := by decide
    omega

/-- C3, witness at a concrete 14-byte packet. -/
theorem telemetry_example_decode_witness :
    parse_speed_data (telemetryPrefix ++ [0x2b]) = some (3300, 3323) :=
  telemetry_example_decode [0x2b]

/-- C9: after a successful connect, sends go through (no streaming step is
required); after disconnect every send fails without writing; and
disconnecting twice is a no-op the second time (never an error). -/
theorem session_lifecycle (c : Controller) (data : List Nat) :
    send_output_report (connect c).connected data = (true, [data])
    ∧ send_output_report (disconnect c).connected data = (false, [])
    ∧ disconnect (disconnect c) = disconnect c :=
  ⟨rfl, rfl, rfl⟩

/-- C9, witness at a concrete session and report. -/
theorem session_lifecycle_witness :
    send_output_report (connect ⟨false⟩).connected [1, 2] = (true, [[1, 2]])
    ∧ send_output_report (disconnect ⟨false⟩).connected [1, 2] = (false, [])
    ∧ disconnect (disconnect ⟨false⟩) = disconnect ⟨false⟩ :=
  session_lifecycle ⟨false⟩ [1, 2]

/-- C10: the twelve gear-table entries decode to twelve pairwise distinct
frames, each beginning with the header bytes `5A A5 26 05`. -/
theorem gear_table_injective :
    gearFrames.length = 12 ∧ gearFrames.Nodup
    ∧ gearFrames.all (fun f => f.take 4 == [0x5a, 0xa5, 0x26, 0x05]) = true := by
  decide

/-- C4: telemetry decoding fails on every input shorter than 12 bytes,
succeeds on every input of length at least 12 reading bytes `[8:10]` and
`[10:12]` big-endian, and recovers exactly the pair used to build a frame
with those big-endian fields at those offsets. -/
theorem parse_speed_data_spec :
    (∀ data : List Nat, data.length < 12 → parse_speed_data data = none)
    ∧ (∀ data : List Nat, 12 ≤ data.length →
        parse_speed_data data
          = some (256 * data.getD 8 0 + data.getD 9 0,
                  256 * data.getD 10 0 + data.getD 11 0))
    ∧ (∀ target actual : Nat, target ≤ 65535 → actual ≤ 65535 →
        ∀ head tail : List Nat, head.length = 8 →
          parse_speed_data (head
              ++ [target / 256, target % 256, actual / 256, actual % 256] ++ tail)
            = some (target, actual)) := by
  refine ⟨?_, ?_, ?_⟩
  · intro data h
    unfold parse_speed_data
    rw [if_pos h]
  · intro data h
    unfold parse_speed_data
    rw [if_neg (by omega)]
  · intro target actual ht ha head tail hh
    have hmid : [target / 256, target % 256, actual / 256, actual % 256].length = 4 :=
      rfl
    unfold parse_speed_data
    rw [if_neg (by
      simp only [List.length_append, List.length_cons, List.length_nil, hh]; omega)]
    rw [show (head ++ [target / 256, target % 256, actual / 256, actual % 256]
          ++ tail).getD 8 0 = target / 256 from by
        rw [List.getD_append _ _ _ _ (by
              simp only [List.length_append, hh, hmid]; omega),
            List.getD_append_right _ _ _ _ (by omega),
            show 8 - head.length = 0 from by omega]; rfl]
    rw [show (head ++ [target / 256, target % 256, actual / 256, actual % 256]
          ++ tail).getD 9 0 = target % 256 from by
        rw [List.getD_append _ _ _ _ (by
              simp only [List.length_append, hh, hmid]; omega),
            List.getD_append_right _ _ _ _ (by omega),
            show 9 - head.length = 1 from by omega]; rfl]
    rw [show (head ++ [target / 256, target % 256, actual / 256, actual % 256]
          ++ tail).getD 10 0 = actual / 256 from by
        rw [List.getD_append _ _ _ _ (by
              simp only [List.length_append, hh, hmid]; omega),
            List.getD_append_right _ _ _ _ (by omega),
            show 10 - head.length = 2 from by omega]; rfl]
    rw [show (head ++ [target / 256, target % 256, actual / 256, actual % 256]
          ++ tail).getD 11 0 = actual % 256 from by
        rw [List.getD_append _ _ _ _ (by
              simp only [List.length_append, hh, hmid]; omega),
            List.getD_append_right _ _ _ _ (by omega),
            show 11 - head.length = 3 from by omega]; rfl]
    rw [show 256 * (target / 256) + target % 256 = target from by omega,
        show 256 * (actual / 256) + actual % 256 = actual from by omega]

/-- C4, witness: a short packet fails, a 12-byte packet succeeds, and the
round trip recovers (2000, 3300). -/
theorem parse_speed_data_spec_witness :
    parse_speed_data (List.replicate 11 0) = none
    ∧ parse_speed_data (List.replicate 12 0)
        = some (256 * (List.replicate 12 0).getD 8 0 + (List.replicate 12 0).getD 9 0,
                256 * (List.replicate 12 0).getD 10 0 + (List.replicate 12 0).getD 11 0)
    ∧ parse_speed_data (List.replicate 8 0
        ++ [2000 / 256, 2000 % 256, 3300 / 256, 3300 % 256] ++ [])
        = some (2000, 3300) :=
  ⟨parse_speed_data_spec.1 (List.replicate 11 0) (by decide),
   parse_speed_data_spec.2.1 (List.replicate 12 0) (by decide),
   parse_speed_data_spec.2.2 2000 3300 (by decide) (by decide)
     (List.replicate 8 0) [] (by decide)⟩

/-- C5, counterexample: `enter_realtime_speed_mode` hands a 24-byte payload
to `send_hex_command` with declared total length 23; the claim requires a
failure, but the command is sent successfully as a 25-byte report. -/
theorem frame_length_counterexample :
    (enter_realtime_speed_mode true).1 = true
    ∧ (enter_realtime_speed_mode true).2.map List.length = [25]
    ∧ (25 : Nat) ≠ 23 := by decide

/-- C5 (amended): an over-long payload is not rejected: the report is sent
unpadded with length `payload + 1`; otherwise the report is zero-padded to
exactly the declared total length.  In both cases the emitted length is
`max padding_length (payload + 1)`. -/
theorem send_hex_frame_length (s : String) (rid pl : Nat) (p : List Nat)
    (h : bytesFromhex (stripHexText s) = some p) :
    send_hex_command true s rid pl
      = (true, [rid :: (p ++ List.replicate (pl - 1 - p.length) 0)])
    ∧ (rid :: (p ++ List.replicate (pl - 1 - p.length) 0)).length
        = max pl (p.length + 1) := by
  constructor
  · unfold send_hex_command
    rw [h]
    rfl
  · simp only [List.length_cons, List.length_append, List.length_replicate]
    omega

/-- C5, witness: a 2-byte payload with declared length 23 is padded to a
23-byte report. -/
theorem send_hex_frame_length_witness :
    send_hex_command true "5aa5" 2 23
      = (true, [2 :: ([0x5a, 0xa5]
          ++ List.replicate (23 - 1 - [0x5a, 0xa5].length) 0)])
    ∧ (2 :: ([0x5a, 0xa5] ++ List.replicate (23 - 1 - [0x5a, 0xa5].length) 0)).length
        = max 23 ([0x5a, 0xa5].length + 1) :=
  send_hex_frame_length "5aa5" 2 23 [0x5a, 0xa5] (by decide)

/-- C6: the gear command is defined on exactly the twelve pairs of
{1,2,3,4} × {1,2,3} and fails with no I/O on every other pair; brightness
produces its fixed frame for exactly 0 and 100 and fails with no I/O on any
other percentage. -/
theorem gear_brightness_domains :
    (∀ g p : Int, 1 ≤ g → g ≤ 4 → 1 ≤ p → p ≤ 3 →
        ∃ f, set_gear_position true g p = (true, [f]))
    ∧ (∀ g p : Int, ¬(1 ≤ g ∧ g ≤ 4 ∧ 1 ≤ p ∧ p ≤ 3) →
        set_gear_position true g p = (false, []))
    ∧ set_brightness true 0
        = (true, [[2, 0x5a, 0xa5, 0x47, 0x0d, 0x1c, 0x00, 0xff,
            0, 0, 0, 0, 0, 0, 0, 0, 0x6f] ++ List.replicate 8 0])
    ∧ set_brightness true 100
        = (true, [[2, 0x5a, 0xa5, 0x43, 0x02, 0x45] ++ List.replicate 19 0])
    ∧ (∀ q : Int, q ≠ 0 → q ≠ 100 → set_brightness true q = (false, [])) := by
  refine ⟨?_, ?_, by decide, by decide, ?_⟩
  · intro g p h1 h2 h3 h4
    interval_cases g <;> interval_cases p <;> exact ⟨_, rfl⟩
  · intro g p h
    have k11 : ¬(g = 1 ∧ p = 1) := by omega
    have k12 : ¬(g = 1 ∧ p = 2) := by omega
    have k13 : ¬(g = 1 ∧ p = 3) := by omega
    have k21 : ¬(g = 2 ∧ p = 1) := by omega
    have k22 : ¬(g = 2 ∧ p = 2) := by omega
    have k23 : ¬(g = 2 ∧ p = 3) := by omega
    have k31 : ¬(g = 3 ∧ p = 1) := by omega
    have k32 : ¬(g = 3 ∧ p = 2) := by omega
    have k33 : ¬(g = 3 ∧ p = 3) := by omega
    have k41 : ¬(g = 4 ∧ p = 1) := by omega
    have k42 : ¬(g = 4 ∧ p = 2) := by omega
    have k43 : ¬(g = 4 ∧ p = 3) := by omega
    have hg : gear_position_hex g p = none := by
      unfold gear_position_hex
      rw [if_neg k11, if_neg k12, if_neg k13, if_neg k21, if_neg k22, if_neg k23,
          if_neg k31, if_neg k32, if_neg k33, if_neg k41, if_neg k42, if_neg k43]
    unfold set_gear_position
    rw [hg]
  · intro q h0 h100
    unfold set_brightness
    rw [if_neg h0, if_neg h100]

/-- C6, witness: gear (2,3) succeeds; gear (5,1) and (1,4) fail;
brightness 50 fails. -/
theorem gear_brightness_domains_witness :
    (∃ f, set_gear_position true 2 3 = (true, [f]))
    ∧ set_gear_position true 5 1 = (false, [])
    ∧ set_gear_position true 1 4 = (false, [])
    ∧ set_brightness true 50 = (false, []) :=
  ⟨gear_brightness_domains.1 2 3 (by decide) (by decide) (by decide) (by decide),
   gear_brightness_domains.2.1 5 1 (by decide),
   gear_brightness_domains.2.1 1 4 (by decide),
   gear_brightness_domains.2.2.2.2 50 (by decide) (by decide)⟩

/-- C7: any rpm outside [0, 65535] is rejected by `set_fan_speed` before
any I/O: the result is a failure and the write trace is empty, whether or
not a device is connected; the value is never clamped into range. -/
theorem speed_out_of_range_rejected (rpm : Int) (h : rpm < 0 ∨ 65535 < rpm)
    (connected : Bool) :
    set_fan_speed connected rpm = (false, []) := by
  unfold set_fan_speed
  rw [if_pos h]

/-- C7, witness at rpm = 70000 and rpm = -1. -/
theorem speed_out_of_range_rejected_witness :
    set_fan_speed true 70000 = (false, [])
    ∧ set_fan_speed true (-1) = (false, []) :=
  ⟨speed_out_of_range_rejected 70000 (by decide) true,
   speed_out_of_range_rejected (-1) (by decide) true⟩

/-- C8, counterexample: `"5a0xa5"` still contains the non-hex character
`x` after stripping whitespace and one optional leading `0x`, so by the
claim it must fail with nothing sent; the code instead strips the interior
`0x`, decodes `5aa5`, and sends the frame successfully. -/
theorem hex_strip_counterexample :
    (specStripHexText "5a0xa5").data.all plainHex = false
    ∧ send_hex_command true "5a0xa5" 2 23
        = (true, [2 :: 0x5a :: 0xa5 :: List.replicate 20 0]) := by decide

/-- C8 (amended): hex text is decoded after removing spaces and every
occurrence of the substring `0x` (not only a leading prefix); the
remainder is then hex-decoded with ASCII whitespace skipped between byte
pairs.  If that decoding fails — a non-hex non-whitespace character,
whitespace splitting a byte pair, or an odd digit count — the command
fails and nothing is sent, and otherwise the decoded bytes are used
verbatim as the frame body after the report id, zero-padded to the
declared length. -/
theorem send_hex_decode_spec (s : String) (rid pl : Nat) :
    (bytesFromhex (stripHexText s) = none →
        ∀ c : Bool, send_hex_command c s rid pl = (false, []))
    ∧ (∀ p : List Nat, bytesFromhex (stripHexText s) = some p →
        send_hex_command true s rid pl
          = (true, [rid :: (p ++ List.replicate (pl - 1 - p.length) 0)])) := by
  constructor
  · intro h c
    unfold send_hex_command
    rw [h]
  · intro p h
    unfold send_hex_command
    rw [h]
    rfl

/-- C8, witness: `"zz"` fails with nothing sent; `"0x5aa5"` decodes to
`5a a5` and is sent zero-padded; and a tab between byte pairs, which
survives `replace(" ", "")`, is skipped by the decode, so `"5a\ta5"` is
also sent as `5a a5`. -/
theorem send_hex_decode_spec_witness :
    send_hex_command true "zz" 2 23 = (false, [])
    ∧ send_hex_command true "0x5aa5" 2 23
        = (true, [2 :: ([0x5a, 0xa5]
            ++ List.replicate (23 - 1 - [0x5a, 0xa5].length) 0)])
    ∧ send_hex_command true "5a\ta5" 2 23
        = (true, [2 :: ([0x5a, 0xa5]
            ++ List.replicate (23 - 1 - [0x5a, 0xa5].length) 0)]) :=
  ⟨(send_hex_decode_spec "zz" 2 23).1 (by decide) true,
   (send_hex_decode_spec "0x5aa5" 2 23).2 [0x5a, 0xa5] (by decide),
   (send_hex_decode_spec "5a\ta5" 2 23).2 [0x5a, 0xa5] (by decide)⟩

end BS2PRO
